import Mathlib

/-!
Shallow embedding of the core of the bnb-x402 repository (x402 "Payment
Required" protocol for EVM chains) and proofs about it.

Embedded components:
* `ExactEvmScheme.verify` / `ExactEvmScheme.settle` (the V2 facilitator
  scheme engine), with chain I/O modelled by an explicit environment and
  the sequence of performed effects returned as an action trace;
* `verifyTransferWithAuthorizationSupport` (the EIP-3009 capability
  probe), modelled as a state-passing process counting chain queries;
* `ZeroGasTool.executeGaslessWithdraw` (the nonce-conflict retry loop);
* `getEvmChainId` (network-string to chain-id resolution);
* the Hono `paymentMiddleware` per-request pipeline.

Machine integers of the source (`bigint`, unix seconds) are modelled as
`Int`; JavaScript strings as `String`.  External library functions that
the code consumes (viem `getAddress`, `parseErc6492Signature`, RPC
calls, receipt polling) are modelled by explicit environment fields or
by deterministic canonicalisation functions, as noted at each use.
-/

namespace BnbX402

/-- Prefix test on character lists (kernel-reducible building block for
the substring tests below). -/
def isPrefixList : List Char → List Char → Bool
  | [], _ => true
  | _ :: _, [] => false
  | p :: ps, x :: xs => p = x && isPrefixList ps xs

/-- Occurrence of `pat` as a contiguous sublist of `l`. -/
def containsList (pat : List Char) : List Char → Bool
  | [] => isPrefixList pat []
  | x :: xs => isPrefixList pat (x :: xs) || containsList pat xs

/-- JS `String.prototype.includes(pat)`. -/
def containsSub (s pat : String) : Bool :=
  containsList pat.toList s.toList

/-- JS `String.prototype.toLowerCase()`, character by character. -/
def toLowerStr (s : String) : String :=
  String.mk (s.toList.map Char.toLower)

/-- viem `getAddress` canonicalises an address to its EIP-55 checksummed
form; equality of canonical forms coincides with case-insensitive
equality of the underlying hex strings, which we model by lower-casing.
Used wherever the source compares `getAddress(x)` results or calls
`isAddressEqual`. -/
def getAddr (s : String) : String :=
  toLowerStr s

/-- The well-known facilitator contract address (a literal in the source). -/
def facilitatorAddress : String :=
  "0x555e3311a9893c9B17444C1Ff0d88192a57Ef13e"

/-- The zero address literal used by `isAddressEqual` checks. -/
def zeroAddress : String :=
  "0x0000000000000000000000000000000000000000"

/-- JS truthiness of an optional string: `undefined` and `""` are falsy. -/
def truthyStr : Option String → Bool
  | none => false
  | some s => s ≠ ""

/-- The numeric value of a decimal numeral, digit by digit (the value JS
`Number` / `parseInt` assign to an all-digits string). -/
def digitsToNat (l : List Char) : Nat :=
  l.foldl (fun acc c => acc * 10 + (c.toNat - 48)) 0

/-- JS `parseInt` on the decimal digit prefix of a character list
(modelled for non-negative decimal numerals, the only inputs the
embedded call sites produce): `none` plays the role of `NaN`. -/
def jsParseIntChars (l : List Char) : Option Nat :=
  let ds := l.takeWhile Char.isDigit
  if ds.isEmpty then none else some (digitsToNat ds)

/-- JS `String.prototype.split(sep)` for a single-character separator,
modelled on the character list of the string. -/
def splitOnChar (c : Char) : List Char → List (List Char)
  | [] => [[]]
  | x :: xs =>
    let r := splitOnChar c xs
    if x = c then [] :: r
    else
      match r with
      | [] => [[x]]
      | h :: t => (x :: h) :: t

/-- The `/^\d+$/` test: a non-empty all-digits character list. -/
def isDigitsList (l : List Char) : Bool :=
  !l.isEmpty && l.all Char.isDigit

/-- JS `Number(s)` restricted to decimal-integer numerals (the forms
relevant to chain-id strings): the whole string must be digits; anything
else is `NaN` (`none`). -/
def jsNumberChars (l : List Char) : Option Nat :=
  if isDigitsList l then some (digitsToNat l) else none

/-! ## Data model (from `@x402/core/types` as used by the scheme) -/

/-- The signed EIP-3009-style authorization tuple.  The source stores
`value`, `validAfter`, `validBefore` as decimal strings and converts with
`BigInt(...)` at each use; we model them directly as integers. -/
structure EvmAuthorization where
  from_ : String
  to_ : String
  value : Int
  validAfter : Int
  validBefore : Int
  nonce : String
  deriving Repr, DecidableEq

/-- `ExactEvmPayloadV2 = { authorization, signature }`. -/
structure ExactEvmPayloadV2 where
  authorization : EvmAuthorization
  signature : String
  deriving Repr, DecidableEq

/-- The `accepted` requirement mirror carried inside a payment payload. -/
structure AcceptedRequirement where
  scheme : String
  network : String
  deriving Repr, DecidableEq

/-- The `resource` mirror carried inside a payment payload. -/
structure ResourceInfo where
  url : String
  deriving Repr, DecidableEq

/-- `PaymentPayload` as consumed by the V2 `ExactEvmScheme`. -/
structure PaymentPayload where
  x402Version : Int
  payload : ExactEvmPayloadV2
  accepted : AcceptedRequirement
  resource : ResourceInfo
  deriving Repr, DecidableEq

/-- The optional `extra: { name, version }` EIP-712 domain of a
requirement. -/
structure Eip712Extra where
  name : String
  version : String
  deriving Repr, DecidableEq

/-- `PaymentRequirements` as consumed by the V2 `ExactEvmScheme`:
`amount` is the integer atomic-unit amount (`BigInt(requirements.amount)`
in the source). -/
structure PaymentRequirements where
  scheme : String
  network : String
  asset : String
  payTo : String
  amount : Int
  extra : Option Eip712Extra
  deriving Repr, DecidableEq

/-- `VerifyResponse = { isValid, invalidReason?, payer }`. -/
structure VerifyResponse where
  isValid : Bool
  invalidReason : Option String
  payer : String
  deriving Repr, DecidableEq

/-- `SettleResponse = { success, errorReason?, transaction, network, payer }`. -/
structure SettleResponse where
  success : Bool
  errorReason : Option String
  transaction : String
  network : String
  payer : String
  deriving Repr, DecidableEq

/-- The closed taxonomy of `invalidReason` / `errorReason` strings from
section 7 of the specification. -/
def taxonomy : List String :=
  ["insufficient_funds", "unsupported_scheme", "network_mismatch",
   "missing_eip712_domain", "invalid_exact_evm_payload_signature",
   "invalid_exact_evm_payload_undeployed_smart_wallet",
   "invalid_exact_evm_payload_recipient_mismatch",
   "invalid_exact_evm_payload_authorization_valid_before",
   "invalid_exact_evm_payload_authorization_valid_after",
   "invalid_exact_evm_payload_authorization_value",
   "invalid_scheme", "invalid_transaction_state", "invalid_payload",
   "invalid_network", "invalid_x402_version", "payment_expired",
   "unexpected_verify_error", "unexpected_settle_error"]

/-! ## ExactEvmScheme.verify (V2 facilitator) -/

/-- Result of viem `parseErc6492Signature`: the unwrapped signature plus,
for EIP-6492-wrapped blobs, the factory `address` and `data`. -/
structure Erc6492Data where
  address : Option String
  data : Option String
  signature : String
  deriving Repr, DecidableEq

/-- Outcome of the `estimateGas` probe in `verify`: success, a thrown
`Error` carrying a message string, or a thrown non-`Error` value (the
source distinguishes the two with `error instanceof Error`). -/
inductive GasEstimateOutcome where
  | ok
  | errMsg (msg : String)
  | errNonError
  deriving Repr, DecidableEq

/-- Environment of one `verify` call: the wall clock and the outcomes of
every chain interaction `verify` can perform. -/
structure VerifyEnv where
  now : Int
  supports3009 : Bool
  estimateGas : GasEstimateOutcome
  allowanceRead : Int
  getCode : String → Option String
  parse6492 : String → Erc6492Data
  balanceRead : Except Unit Int

/-- The error-message classifier of `verify`'s `estimateGas` catch
branch: six fixed human-readable texts keyed on 4-byte revert selectors,
with a prefixed fallback.  (On the `0x13be252b` branch the source also
reads the current allowance; that read does not influence the returned
message.) -/
def selectorMessage (errorStr : String) : String :=
  if containsSub errorStr "0x13be252b" then
    "Insufficient token allowance. Please approve the facilitator contract to spend your tokens before making the payment."
  else if containsSub errorStr "0xccea9e6f" then
    "Invalid operator. The caller is not authorized to perform this operation."
  else if containsSub errorStr "0xdf8e4372" then
    "Authorization not yet valid. The payment authorization is not yet active."
  else if containsSub errorStr "0x0f05f5bf" then
    "Authorization expired. The payment authorization has expired."
  else if containsSub errorStr "0x1f6d5aef" then
    "Nonce already used. This authorization has already been used."
  else if containsSub errorStr "0x8baa579f" then
    "Invalid signature. The payment authorization signature is invalid."
  else
    "Failed to estimate gas: " ++ errorStr

/-- `!requirements.extra?.name || !requirements.extra?.version`:
the EIP-712 domain is missing when `extra` is absent or either field is
falsy (empty). -/
def extraMissing : Option Eip712Extra → Bool
  | none => true
  | some e => e.name = "" || e.version = ""

/-- Signature length in hex characters after stripping a `0x` prefix
(65-byte EOA signatures have length 130). -/
def sigHexLength (signature : String) : Nat :=
  if signature.toList.take 2 = ['0', 'x'] then
    signature.toList.length - 2
  else
    signature.toList.length

/-- `!bytecode || bytecode === "0x"`: the payer has no deployed code. -/
def noCode : Option String → Bool
  | none => true
  | some c => c = "" || c = "0x"

/-- The EIP-6492 deployment-info test of `verify`'s smart-wallet branch:
`erc6492Data.address && erc6492Data.data && !isAddressEqual(address, 0)`. -/
def hasDeploymentInfo (d : Erc6492Data) : Bool :=
  truthyStr d.address && truthyStr d.data &&
    !(getAddr (d.address.getD "") = getAddr zeroAddress)

/-- The gas-estimation / smart-wallet phase of `verify` (the `try {
estimateGas } catch { ... }` block): `some reason` is an early failure,
`none` means control falls through to the field-level checks. -/
def gasPhaseReason (env : VerifyEnv) (p : PaymentPayload) : Option String :=
  match env.estimateGas with
  | .ok => none
  | .errMsg m => some (selectorMessage m)
  | .errNonError =>
    let signature := p.payload.signature
    if sigHexLength signature > 130 then
      if noCode (env.getCode p.payload.authorization.from_) then
        if hasDeploymentInfo (env.parse6492 signature) then
          none
        else
          some "invalid_exact_evm_payload_undeployed_smart_wallet"
      else
        some "invalid_exact_evm_payload_signature"
    else
      some "invalid_exact_evm_payload_signature"

/-- The `VerifyResponse` computed by `ExactEvmScheme.verify` (V2): seven
ordered checks, first failure returns. -/
def verifyResponse (env : VerifyEnv) (p : PaymentPayload)
    (req : PaymentRequirements) : VerifyResponse :=
  let a := p.payload.authorization
  let fail : String → VerifyResponse := fun r => ⟨false, some r, a.from_⟩
  if p.accepted.scheme ≠ "exact" ∨ req.scheme ≠ "exact" then
    fail "unsupported_scheme"
  else if extraMissing req.extra then
    fail "missing_eip712_domain"
  else if p.accepted.network ≠ req.network then
    fail "network_mismatch"
  else
    match gasPhaseReason env p with
    | some r => fail r
    | none =>
      if getAddr a.to_ ≠ getAddr req.payTo then
        fail "invalid_exact_evm_payload_recipient_mismatch"
      else if a.validBefore < env.now + 6 then
        fail "invalid_exact_evm_payload_authorization_valid_before"
      else if a.validAfter > env.now then
        fail "invalid_exact_evm_payload_authorization_valid_after"
      else
        match env.balanceRead with
        | .ok balance =>
          if balance < req.amount then
            fail "insufficient_funds"
          else if a.value < req.amount then
            fail "invalid_exact_evm_payload_authorization_value"
          else
            ⟨true, none, a.from_⟩
        | .error _ =>
          if a.value < req.amount then
            fail "invalid_exact_evm_payload_authorization_value"
          else
            ⟨true, none, a.from_⟩

/-- `ExactEvmScheme.verify` (V2): the payload is threaded through
unchanged, mirroring that the source never assigns to it; the first
component is the returned `VerifyResponse`. -/
def verify (env : VerifyEnv) (p : PaymentPayload) (req : PaymentRequirements) :
    VerifyResponse × PaymentPayload :=
  (verifyResponse env p req, p)

/-! ## ExactEvmScheme.settle (V2 facilitator) -/

/-- Observable effects settle performs, in order.  `scanLog` is the
fire-and-forget telemetry POST issued only on sponsored success. -/
inductive SettleAction where
  | deploySubmit
  | deployWaitReceipt
  | zgValidateCall
  | zgSubmit
  | zgWaitReceipt
  | scanLog
  | directSubmit
  | directWaitReceipt
  deriving Repr, DecidableEq

/-- Result of `ZeroGasTool.validateGaslessWithdraw2` as consumed by
`settle` (its own implementation catches every throw and returns
`{ isValid: false }`). -/
structure ZgValidation where
  isValid : Bool
  deriving Repr, DecidableEq

/-- Environment of one `settle` call: outcomes of every chain or
paymaster interaction.  `Except String α` models a call that either
returns or throws an `Error` with the given message; the receipt waits
return the receipt `status` string (`"success"` / `"reverted"`) when
they do not throw.  `extractTxHash` models the
`/hash\s+"(0x...)"/` regex applied to a thrown message. -/
structure SettleEnv where
  parse6492 : String → Erc6492Data
  getCode : String → Option String
  deploySend : Except String String
  deployWait : Except String String
  supports3009 : Bool
  zgValidate : ZgValidation
  zgExecute : Except String String
  zgWait : Except String String
  directSend : Except String String
  directWait : Except String String
  extractTxHash : String → Option String

/-- The error-message classifier of `settle`'s outer catch: the six
selector texts of `selectorMessage`, plus a viem receipt-timeout message
preserved verbatim, plus a prefixed fallback. -/
def settleErrorMessage (errorStr : String) : String :=
  if containsSub errorStr "0x13be252b" then
    "Insufficient token allowance. Please approve the facilitator contract to spend your tokens before making the payment."
  else if containsSub errorStr "0xccea9e6f" then
    "Invalid operator. The caller is not authorized to perform this operation."
  else if containsSub errorStr "0xdf8e4372" then
    "Authorization not yet valid. The payment authorization is not yet active."
  else if containsSub errorStr "0x0f05f5bf" then
    "Authorization expired. The payment authorization has expired."
  else if containsSub errorStr "0x1f6d5aef" then
    "Nonce already used. This authorization has already been used."
  else if containsSub errorStr "0x8baa579f" then
    "Invalid signature. The payment authorization signature is invalid."
  else if containsSub errorStr "Timed out while waiting for transaction" then
    errorStr
  else
    "Failed to settle transaction: " ++ errorStr

/-- The chain-56 test of `settle`:
`parseInt(requirements.network.split(":")[1]) == 56`. -/
def isChain56 (network : String) : Bool :=
  jsParseIntChars (((splitOnChar ':' network.toList).get? 1).getD []) = some 56

/-- The outer-catch result of `settle`: classify the thrown message and
keep the best transaction hash available
(`tx || txHashFromError || ""`). -/
def settleCatch (env : SettleEnv) (p : PaymentPayload) (tx : Option String)
    (m : String) : SettleResponse :=
  { success := false
    errorReason := some (settleErrorMessage m)
    transaction := (tx <|> env.extractTxHash m).getD ""
    network := p.accepted.network
    payer := p.payload.authorization.from_ }

/-- Stage C of `settle`: direct facilitator submission plus receipt wait.
`tx0` is the hash left over from an earlier partial sponsored attempt
(the source's `tx` variable), used only if `sendTransaction` itself
throws. -/
def settleDirect (env : SettleEnv) (p : PaymentPayload) (tx0 : Option String)
    (tr : List SettleAction) : SettleResponse × List SettleAction :=
  match env.directSend with
  | .error e => (settleCatch env p tx0 e, tr ++ [.directSubmit])
  | .ok dtx =>
    match env.directWait with
    | .error e => (settleCatch env p (some dtx) e, tr ++ [.directSubmit, .directWaitReceipt])
    | .ok st =>
      if st ≠ "success" then
        ({ success := false
           errorReason := some "invalid_transaction_state"
           transaction := dtx
           network := p.accepted.network
           payer := p.payload.authorization.from_ },
         tr ++ [.directSubmit, .directWaitReceipt])
      else
        ({ success := true
           errorReason := none
           transaction := dtx
           network := p.accepted.network
           payer := p.payload.authorization.from_ },
         tr ++ [.directSubmit, .directWaitReceipt])

/-- The main body of `settle` after the optional Stage-A deployment: the
chain-56 sponsored/gasless attempt followed (or not) by the direct path,
mirroring the `next` flag of the source. -/
def settleMain (env : SettleEnv) (p : PaymentPayload) (req : PaymentRequirements)
    (tr : List SettleAction) : SettleResponse × List SettleAction :=
  let a := p.payload.authorization
  if isChain56 req.network then
    if env.zgValidate.isValid then
      match env.zgExecute with
      | .error _ =>
        -- inner catch: silent, fall through to the direct path
        settleDirect env p none (tr ++ [.zgValidateCall, .zgSubmit])
      | .ok ztx =>
        match env.zgWait with
        | .error _ =>
          -- inner catch: silent, fall through to the direct path
          settleDirect env p (some ztx) (tr ++ [.zgValidateCall, .zgSubmit, .zgWaitReceipt])
        | .ok st =>
          if st = "success" then
            -- sponsored success: scan log, return the sponsored hash
            ({ success := true
               errorReason := none
               transaction := ztx
               network := p.accepted.network
               payer := a.from_ },
             tr ++ [.zgValidateCall, .zgSubmit, .zgWaitReceipt, .scanLog])
          else
            -- receipt not successful: the source sets `next = false`,
            -- skipping the direct path, and returns success with the
            -- sponsored hash
            ({ success := true
               errorReason := none
               transaction := ztx
               network := p.accepted.network
               payer := a.from_ },
             tr ++ [.zgValidateCall, .zgSubmit, .zgWaitReceipt])
    else
      settleDirect env p none (tr ++ [.zgValidateCall])
  else
    settleDirect env p none tr

/-- `ExactEvmScheme.settle` (V2): optional Stage-A smart-wallet
deployment, then `settleMain`.  `cfg` is
`config.deployERC4337WithEIP6492` (default `false`). -/
def settle (cfg : Bool) (env : SettleEnv) (p : PaymentPayload)
    (req : PaymentRequirements) : SettleResponse × List SettleAction :=
  let a := p.payload.authorization
  let d6492 := env.parse6492 p.payload.signature
  let stageAneeded :=
    cfg && truthyStr d6492.address && truthyStr d6492.data &&
      !(getAddr (d6492.address.getD "") = getAddr zeroAddress)
  if stageAneeded then
    if noCode (env.getCode a.from_) then
      match env.deploySend with
      | .error e => (settleCatch env p none e, [.deploySubmit])
      | .ok _ =>
        match env.deployWait with
        | .error e => (settleCatch env p none e, [.deploySubmit, .deployWaitReceipt])
        | .ok _ => settleMain env p req [.deploySubmit, .deployWaitReceipt]
    else
      settleMain env p req []
  else
    settleMain env p req []

/-! ## EIP-3009 capability probe (`contractUtils`) -/

/-- State of the probing process: the number of chain `readContract`
calls issued so far by this process. -/
structure ProbeState where
  queries : Nat
  deriving Repr, DecidableEq

/-- Environment of the probe: the outcome of the i-th chain
`readContract` call of the process (success, or a thrown `Error` whose
message is classified). -/
structure ProbeEnv where
  readOutcome : Nat → Except String Unit

/-- The revert-message classifier of `hasTransferWithAuthorization`,
applied to the lower-cased thrown message: absence patterns, then
presence-with-invalid-args patterns, then generic-revert patterns, then
a conservative `false`. -/
def classifyProbeError (errorMessage : String) : Bool :=
  let m := toLowerStr errorMessage
  if containsSub m "function does not exist" ||
     containsSub m "method not found" ||
     containsSub m "unknown method" ||
     containsSub m "function selector not found" ||
     containsSub m "no matching function" ||
     containsSub m "invalid function selector" ||
     containsSub m "function not found" ||
     (containsSub m "contract function" && containsSub m "not found") then
    false
  else if containsSub m "authorization is expired" ||
          containsSub m "invalid signature" ||
          containsSub m "authorization is used" ||
          containsSub m "authorization is not yet valid" ||
          containsSub m "invalid authorization" ||
          containsSub m "invalid signature length" then
    true
  else if containsSub m "execution reverted: 0x" ||
          (containsSub m "execution reverted" && !containsSub m ":") then
    false
  else
    false

/-- `hasTransferWithAuthorization`: issue one chain `readContract` probe
with zero/empty arguments and classify a failure; the token address does
not influence which chain call is consumed (one call per invocation). -/
def hasTransferWithAuthorization (env : ProbeEnv) (_tokenAddress : String)
    (s : ProbeState) : Bool × ProbeState :=
  let s1 : ProbeState := ⟨s.queries + 1⟩
  match env.readOutcome s.queries with
  | .ok _ => (true, s1)
  | .error msg => (classifyProbeError msg, s1)

/-- `verifyTransferWithAuthorizationSupport`: delegates to
`hasTransferWithAuthorization` (plus logging); no caching layer exists in
the source. -/
def verifyTransferWithAuthorizationSupport (env : ProbeEnv)
    (tokenAddress : String) (s : ProbeState) : Bool × ProbeState :=
  hasTransferWithAuthorization env tokenAddress s

/-! ## ZeroGasTool.executeGaslessWithdraw (nonce-conflict retry loop) -/

/-- Observable effects of the retry loop: a `getTransactionCount` fetch
(with its `"pending"` / `"latest"` status flag), a raw-transaction
submission, or a backoff wait in milliseconds. -/
inductive ZgAction where
  | fetchNonce (pending : Bool)
  | sendTx
  | wait (ms : Nat)
  deriving Repr, DecidableEq

/-- `nonce too low` message classes (on the lower-cased message). -/
def isNonceTooLowMsg (msg : String) : Bool :=
  let m := toLowerStr msg
  containsSub m "nonce too low" || containsSub m "nonce is too low" ||
    containsSub m "nonce too small"

/-- `nonce too high` message classes (on the lower-cased message). -/
def isNonceTooHighMsg (msg : String) : Bool :=
  let m := toLowerStr msg
  containsSub m "nonce too high" || containsSub m "nonce is too high" ||
    containsSub m "nonce too large"

/-- `already used` message classes (on the lower-cased message). -/
def isNonceUsedMsg (msg : String) : Bool :=
  let m := toLowerStr msg
  containsSub m "already been used" || containsSub m "nonce already used"

/-- A nonce-related error: one of the three classes above, or any message
mentioning `nonce`. -/
def isNonceErrorMsg (msg : String) : Bool :=
  isNonceTooLowMsg msg || isNonceTooHighMsg msg || isNonceUsedMsg msg ||
    containsSub (toLowerStr msg) "nonce"

/-- The backoff wait of a retry, for the given 1-based attempt number:
`2000·n` for nonce-too-low, `1000` for nonce-too-high, `1500·n` for
already-used, `1000·n` for other nonce errors. -/
def retryWaitMs (msg : String) (attemptNumber : Nat) : Nat :=
  if isNonceTooLowMsg msg then 2000 * attemptNumber
  else if isNonceTooHighMsg msg then 1000
  else if isNonceUsedMsg msg then 1500 * attemptNumber
  else 1000 * attemptNumber

/-- One iteration of the retry loop plus the recovery actions performed
before the next iteration.  `submit i` is the outcome of the i-th
signed-transaction submission (attempt numbering starts at 0);
`remaining` counts the retries still allowed
(`remaining = maxRetries − attempt`, so the loop guard
`attempt < maxRetries` is `remaining > 0`). -/
def execLoopAux (submit : Nat → Except String String) :
    Nat → Nat → Except String String × List ZgAction
  | attempt, 0 =>
    match submit attempt with
    | .ok h => (.ok h, [.fetchNonce true, .sendTx])
    | .error msg => (.error msg, [.fetchNonce true, .sendTx])
  | attempt, r + 1 =>
    match submit attempt with
    | .ok h => (.ok h, [.fetchNonce true, .sendTx])
    | .error msg =>
      if isNonceErrorMsg msg then
        let step : List ZgAction :=
          [.fetchNonce true, .sendTx, .fetchNonce true] ++
            (if isNonceTooHighMsg msg then [ZgAction.fetchNonce false] else []) ++
            [.wait (retryWaitMs msg (attempt + 1))]
        let rest := execLoopAux submit (attempt + 1) r
        (rest.1, step ++ rest.2)
      else
        (.error msg, [.fetchNonce true, .sendTx])

/-- `ZeroGasTool.executeGaslessWithdraw(txConfig, maxRetries = 5)`: up to
`maxRetries` retries after the first attempt, retried only on nonce
errors, the pending nonce refetched from the chain before every
signature/submission; a non-nonce error or exhaustion throws the last
underlying error. -/
def executeGaslessWithdraw (submit : Nat → Except String String)
    (maxRetries : Nat := 5) : Except String String × List ZgAction :=
  execLoopAux submit 0 maxRetries

/-- Number of raw-transaction submissions in a trace. -/
def countSends (tr : List ZgAction) : Nat :=
  (tr.filter (fun a => a = ZgAction.sendTx)).length

/-- The backoff waits of a trace, in order. -/
def waitsOf (tr : List ZgAction) : List Nat :=
  tr.filterMap (fun a => match a with | ZgAction.wait d => some d | _ => none)

/-- Every submission in the trace is immediately preceded by a
pending-nonce fetch. -/
def sendsAfterPendingFetch : List ZgAction → Bool
  | [] => true
  | [a] => a ≠ ZgAction.sendTx
  | a :: b :: rest =>
    if b = ZgAction.sendTx then
      (a = ZgAction.fetchNonce true) && sendsAfterPendingFetch rest
    else
      (a ≠ ZgAction.sendTx) && sendsAfterPendingFetch (b :: rest)

/-! ## getEvmChainId (`mechanisms/evm/src/utils.ts`) -/

/-- The hard-coded network-name table of `getEvmChainId`. -/
def networkMap : List (String × Nat) :=
  [("base", 8453), ("xLayer", 196), ("bsc", 56), ("kite", 2366),
   ("base-sepolia", 84532), ("ethereum", 1), ("sepolia", 11155111),
   ("polygon", 137), ("polygon-amoy", 80002)]

/-- `getEvmChainId`: CAIP-2 `"namespace:number"` strings and bare decimal
strings resolve to their numeric id (when positive and finite); otherwise
the network-name table applies, defaulting to 1
(`networkMap[raw] || 1`).  The JS `raw.includes(":")` / `raw.split(":")`
pair is modelled on the character list of the string. -/
def getEvmChainId (network : String) : Nat :=
  let raw := network.toList
  let caip : Option Nat :=
    if raw.contains ':' then
      let parts := splitOnChar ':' raw
      if parts.length = 2 then
        match jsNumberChars ((parts.get? 1).getD []) with
        | some n => if n > 0 then some n else none
        | none => none
      else none
    else none
  match caip with
  | some n => n
  | none =>
    let bare : Option Nat :=
      if isDigitsList raw then
        let n := digitsToNat raw
        if n > 0 then some n else none
      else none
    match bare with
    | some n => n
    | none => ((networkMap.lookup network).getD 1)

/-! ## Hono paymentMiddleware (`x402-hono`) -/

/-- An HTTP response as the middleware observes and produces it. -/
structure HonoResponse where
  status : Nat
  body : String
  headers : List (String × String)
  deriving Repr, DecidableEq

/-- `headers.set(name, value)`: replace an existing header of that name
or append it. -/
def headersSet (hs : List (String × String)) (name value : String) :
    List (String × String) :=
  if hs.any (fun h => h.1 = name) then
    hs.map (fun h => if h.1 = name then (name, value) else h)
  else
    hs ++ [(name, value)]

/-- A payment requirement as configured on a middleware route
(the `paymentRequirements` entries of `RoutesConfig`). -/
structure MwRequirement where
  scheme : String
  namespace_ : String
  networkId : String
  tokenAddress : String
  payToAddress : String
  resource : Option String
  deriving Repr, DecidableEq

/-- The payment payload as the middleware decodes it from the
`X-PAYMENT` header (`EvmPaymentPayload`). -/
structure MwPayload where
  x402Version : Int
  scheme : String
  namespace_ : String
  networkId : String
  deriving Repr, DecidableEq

/-- Verification response as the middleware consumes it; `type_` is the
optional `type` field checked for `"transaction"` payments. -/
structure MwVerifyResponse where
  isValid : Bool
  invalidReason : Option String
  payer : String
  type_ : Option String
  deriving Repr, DecidableEq

/-- Settlement outcome as the middleware consumes it: a thrown error, or
a `SettleResponse`-shaped record (`success` plus an encoded response
header payload on success, an `error` string otherwise). -/
structure MwSettleResponse where
  success : Bool
  encodedHeader : String
  error : Option String
  deriving Repr, DecidableEq

/-- Environment of one middleware request: the route-matching result,
the request headers, the downstream handler response, and the outcomes
of the external facilitator calls.  `decode` is
`evmUtils.decodePaymentPayload`; `findMatching` is
`findMatchingPaymentRequirements` (imported from the shared package,
modelled as an opaque selection function); `verifyOutcome` /
`settleOutcome` are the facilitator HTTP calls. -/
structure MwEnv where
  routeMatched : Bool
  routeRequirements : List MwRequirement
  requestUrl : String
  header : Option String
  isWebBrowser : Bool
  decode : String → Except String MwPayload
  findMatching : List MwRequirement → MwPayload → Option MwRequirement
  verifyOutcome : MwVerifyResponse
  downstream : HonoResponse
  settleOutcome : Except String MwSettleResponse

/-- Result of one middleware request: the final response, whether the
facilitator `settle` (resp. `verify`) call happened, and the decoded
payment used for match selection (`none` when the request never got that
far). -/
structure MwResult where
  response : HonoResponse
  verifyCalled : Bool
  settleCalled : Bool
  usedPayment : Option MwPayload
  deriving Repr, DecidableEq

/-- The middleware's constant protocol version (`const x402Version = 1`). -/
def mwX402Version : Int := 1

/-- Fill each requirement's `resource` with the request URL (keeping a
preconfigured one of the primary requirement) and checksum
`payToAddress` — the `updatedPaymentRequirements` map. -/
def updateRequirements (reqs : List MwRequirement) (requestUrl : String) :
    List MwRequirement :=
  let resourceUrl :=
    match reqs with
    | [] => requestUrl
    | q :: _ => (q.resource).getD requestUrl
  reqs.map (fun q =>
    { q with resource := some resourceUrl, payToAddress := getAddr q.payToAddress })

/-- A 402 JSON response body carrying an error string (the middleware's
`c.json({error, accepts, x402Version}, 402)` responses, with the body
abbreviated to its `error` field). -/
def mwPaymentRequired (err : String) : HonoResponse :=
  ⟨402, err, []⟩

/-- The Hono `paymentMiddleware` per-request pipeline. -/
def paymentMiddleware (env : MwEnv) : MwResult :=
  if !env.routeMatched then
    ⟨env.downstream, false, false, none⟩
  else if env.routeRequirements.isEmpty then
    ⟨env.downstream, false, false, none⟩
  else
    let updated := updateRequirements env.routeRequirements env.requestUrl
    match env.header with
    | none =>
      if env.isWebBrowser then
        ⟨⟨402, "paywall-html", []⟩, false, false, none⟩
      else
        ⟨mwPaymentRequired "X-PAYMENT header is required", false, false, none⟩
    | some payment =>
      match env.decode payment with
      | .error e => ⟨mwPaymentRequired e, false, false, none⟩
      | .ok decoded =>
        -- `decodedPayment.x402Version = x402Version` : unconditional
        -- overwrite with the constant 1 before match selection
        let decodedPayment := { decoded with x402Version := mwX402Version }
        match env.findMatching updated decodedPayment with
        | none =>
          ⟨mwPaymentRequired "Unable to find matching payment requirements",
           false, false, some decodedPayment⟩
        | some _selected =>
          let verification := env.verifyOutcome
          if !verification.isValid then
            ⟨mwPaymentRequired ((verification.invalidReason).getD ""),
             true, false, some decodedPayment⟩
          else
            -- downstream handler ran; settle is skipped for error
            -- responses and already-executed transaction payments
            let res := env.downstream
            if res.status ≥ 400 then
              ⟨res, true, false, some decodedPayment⟩
            else if verification.type_ = some "transaction" then
              ⟨res, true, false, some decodedPayment⟩
            else
              match env.settleOutcome with
              | .ok settlement =>
                if settlement.success then
                  ⟨{ res with
                      headers := headersSet res.headers "X-PAYMENT-RESPONSE"
                        settlement.encodedHeader },
                   true, true, some decodedPayment⟩
                else
                  -- `throw new Error(settlement.error || ...)`, caught below
                  ⟨mwPaymentRequired
                      ((settlement.error).getD "Settlement failed with undefined data"),
                   true, true, some decodedPayment⟩
              | .error e =>
                ⟨mwPaymentRequired e, true, true, some decodedPayment⟩

/-! ## Helper lemmas -/

/-- Every early failure of the gas-estimation phase is either a
classifier message (for a thrown `Error`) or one of the two smart-wallet
taxonomy strings. -/
theorem gasPhaseReason_cases (env : VerifyEnv) (p : PaymentPayload) :
    gasPhaseReason env p = none ∨
    (∃ m, env.estimateGas = GasEstimateOutcome.errMsg m ∧
        gasPhaseReason env p = some (selectorMessage m)) ∨
    gasPhaseReason env p = some "invalid_exact_evm_payload_undeployed_smart_wallet" ∨
    gasPhaseReason env p = some "invalid_exact_evm_payload_signature" := by
  cases h : env.estimateGas with
  | ok => exact Or.inl (by simp [gasPhaseReason, h])
  | errMsg m => exact Or.inr (Or.inl ⟨m, rfl, by simp [gasPhaseReason, h]⟩)
  | errNonError =>
    by_cases h1 : sigHexLength p.payload.signature > 130
    · by_cases h2 : noCode (env.getCode p.payload.authorization.from_) = true
      · by_cases h3 : hasDeploymentInfo (env.parse6492 p.payload.signature) = true
        · exact Or.inl (by simp [gasPhaseReason, h, h1, h2, h3])
        · exact Or.inr (Or.inr (Or.inl (by simp [gasPhaseReason, h, h1, h2, h3])))
      · exact Or.inr (Or.inr (Or.inr (by simp [gasPhaseReason, h, h1, h2])))
    · exact Or.inr (Or.inr (Or.inr (by simp [gasPhaseReason, h, h1])))

/-- The classifier messages of the gas-estimation catch branch are never
the `invalid_x402_version` taxonomy string. -/
theorem selectorMessage_ne_version (m : String) :
    selectorMessage m ≠ "invalid_x402_version" := by
  unfold selectorMessage
  repeat' split
  any_goals decide
  intro h
  have hd : "Failed to estimate gas: ".data ++ m.data =
      "invalid_x402_version".data := congrArg String.data h
  have hlen := congrArg List.length hd
  simp at hlen

/-! ## Claim C9 -/

/-- Claim C9: every `VerifyResponse` returned by `ExactEvmScheme.verify`,
on every success and failure branch alike, has its `payer` field equal to
the `authorization.from` address of the submitted payload, and `verify`
never mutates the payload. -/
theorem claim9_payer_from_payload_unchanged (env : VerifyEnv)
    (p : PaymentPayload) (req : PaymentRequirements) :
    (verify env p req).1.payer = p.payload.authorization.from_ ∧
    (verify env p req).2 = p := by
  refine ⟨?_, rfl⟩
  show (verifyResponse env p req).payer = _
  simp only [verifyResponse]
  repeat' split
  all_goals rfl

/-! ## Claim C5 -/

/-- Claim C5: for every payload that reaches the field-level semantic
checks of `ExactEvmScheme.verify` (guards passed, gas phase fell through,
recipient matches), `verify` rejects with
`invalid_exact_evm_payload_authorization_valid_before` exactly when
`authorization.validBefore < now + 6` at verify time; in particular
`validBefore = now + 5` is rejected and `validBefore = now + 6` is
accepted by this check. -/
theorem claim5_validBefore_window (env : VerifyEnv) (p : PaymentPayload)
    (req : PaymentRequirements)
    (h1 : p.accepted.scheme = "exact") (h2 : req.scheme = "exact")
    (h3 : extraMissing req.extra = false)
    (h4 : p.accepted.network = req.network)
    (h5 : gasPhaseReason env p = none)
    (h6 : getAddr p.payload.authorization.to_ = getAddr req.payTo) :
    ((verify env p req).1.invalidReason =
        some "invalid_exact_evm_payload_authorization_valid_before" ↔
      p.payload.authorization.validBefore < env.now + 6) ∧
    (p.payload.authorization.validBefore = env.now + 5 →
      (verify env p req).1.invalidReason =
        some "invalid_exact_evm_payload_authorization_valid_before") ∧
    (p.payload.authorization.validBefore = env.now + 6 →
      (verify env p req).1.invalidReason ≠
        some "invalid_exact_evm_payload_authorization_valid_before") := by
  have key : (verify env p req).1.invalidReason =
      some "invalid_exact_evm_payload_authorization_valid_before" ↔
      p.payload.authorization.validBefore < env.now + 6 := by
    show (verifyResponse env p req).invalidReason = _ ↔ _
    simp [verifyResponse, h1, h2, h3, h4, h5, h6]
    repeat' split
    all_goals simp_all
  refine ⟨key, ?_, ?_⟩
  · intro heq
    exact key.mpr (by omega)
  · intro heq hr
    have := key.mp hr
    omega

/-! ## Claim C4 -/

/-- A benign environment for concrete `verify` runs: gas estimation
succeeds, the payer has a sufficient balance. -/
def benignVerifyEnv : VerifyEnv :=
  { now := 100
    supports3009 := true
    estimateGas := .ok
    allowanceRead := 0
    getCode := fun _ => none
    parse6492 := fun s => ⟨none, none, s⟩
    balanceRead := .ok 5000 }

/-- A payload whose `x402Version` is 999 (not an accepted protocol
version) but which satisfies every check `verify` actually performs. -/
def versionPayload : PaymentPayload :=
  ⟨999, ⟨⟨"0xPayer", "0xPayee", 1000, 90, 2000, "0xnonce"⟩, "0xsig"⟩,
   ⟨"exact", "eip155:8453"⟩, ⟨"https://r"⟩⟩

/-- The requirement matching `versionPayload`. -/
def versionReq : PaymentRequirements :=
  ⟨"exact", "eip155:8453", "0xAsset", "0xPayee", 1000, some ⟨"USD Coin", "2"⟩⟩

/-- Claim C4 counterexample: a payload with the unaccepted
`x402Version = 999` is not rejected — `verify` returns `isValid = true`
and never emits `invalid_x402_version`, so the claimed first-check
version guard does not exist. -/
theorem claim4_counterexample :
    versionPayload.x402Version = 999 ∧
    (verify benignVerifyEnv versionPayload versionReq).1.isValid = true ∧
    (verify benignVerifyEnv versionPayload versionReq).1.invalidReason ≠
      some "invalid_x402_version" := by
  exact ⟨rfl, by decide, by decide⟩

/-- Claim C4 (amended): `ExactEvmScheme.verify` performs no
`x402Version` check at all — its result is independent of the payload's
`x402Version` field, and no branch of `verify` ever returns
`invalid_x402_version` (the scheme guard, not a version guard, is the
first check). -/
theorem claim4_amended (env : VerifyEnv) (p : PaymentPayload)
    (req : PaymentRequirements) (v : Int) :
    (verify env { p with x402Version := v } req).1 = (verify env p req).1 ∧
    (verify env p req).1.invalidReason ≠ some "invalid_x402_version" := by
  constructor
  · rfl
  · show (verifyResponse env p req).invalidReason ≠ _
    simp only [verifyResponse]
    repeat' split
    all_goals try simp
    rename_i r hr
    intro h
    rcases gasPhaseReason_cases env p with hnone | ⟨m, _, hsel⟩ | hu | hs
    · rw [hnone] at hr
      cases hr
    · rw [hsel] at hr
      have hrm : selectorMessage m = r := by simpa using hr
      exact selectorMessage_ne_version m (hrm.trans h)
    · rw [hu] at hr
      have hrm : "invalid_exact_evm_payload_undeployed_smart_wallet" = r := by
        simpa using hr
      rw [← hrm] at h
      exact absurd h (by decide)
    · rw [hs] at hr
      have hrm : "invalid_exact_evm_payload_signature" = r := by simpa using hr
      rw [← hrm] at h
      exact absurd h (by decide)

/-- Witness for claim C5 at a concrete input: `validBefore = 2000`,
`now = 100`, so the window check passes and the boundary
characterisation applies. -/
theorem claim5_validBefore_window_witness :
    ((verify benignVerifyEnv versionPayload versionReq).1.invalidReason =
        some "invalid_exact_evm_payload_authorization_valid_before" ↔
      versionPayload.payload.authorization.validBefore <
        benignVerifyEnv.now + 6) :=
  (claim5_validBefore_window benignVerifyEnv versionPayload versionReq
    rfl rfl (by decide) rfl (by decide) (by decide)).1

/-- Every result of the Stage-C direct path is a success, the
`invalid_transaction_state` taxonomy failure, or a classifier-message
failure. -/
theorem settleDirect_cases (env : SettleEnv) (p : PaymentPayload)
    (tx0 : Option String) (tr : List SettleAction) :
    (settleDirect env p tx0 tr).1.success = true ∨
    (settleDirect env p tx0 tr).1.errorReason = some "invalid_transaction_state" ∨
    ∃ m, (settleDirect env p tx0 tr).1.errorReason = some (settleErrorMessage m) := by
  cases hds : env.directSend with
  | error e => exact Or.inr (Or.inr ⟨e, by simp [settleDirect, settleCatch, hds]⟩)
  | ok dtx =>
    cases hdw : env.directWait with
    | error e =>
      exact Or.inr (Or.inr ⟨e, by simp [settleDirect, settleCatch, hds, hdw]⟩)
    | ok st =>
      by_cases hst : st ≠ "success"
      · exact Or.inr (Or.inl (by simp [settleDirect, hds, hdw, hst]))
      · exact Or.inl (by simp [settleDirect, hds, hdw, hst])

/-- Every result of the settle main body is a success, the
`invalid_transaction_state` taxonomy failure, or a classifier-message
failure. -/
theorem settleMain_cases (env : SettleEnv) (p : PaymentPayload)
    (req : PaymentRequirements) (tr : List SettleAction) :
    (settleMain env p req tr).1.success = true ∨
    (settleMain env p req tr).1.errorReason = some "invalid_transaction_state" ∨
    ∃ m, (settleMain env p req tr).1.errorReason = some (settleErrorMessage m) := by
  by_cases h56 : isChain56 req.network = true
  · by_cases hv : env.zgValidate.isValid = true
    · cases hze : env.zgExecute with
      | error e =>
        simpa [settleMain, h56, hv, hze] using
          settleDirect_cases env p none
            (tr ++ [SettleAction.zgValidateCall, SettleAction.zgSubmit])
      | ok ztx =>
        cases hzw : env.zgWait with
        | error e =>
          simpa [settleMain, h56, hv, hze, hzw] using
            settleDirect_cases env p (some ztx)
              (tr ++ [SettleAction.zgValidateCall, SettleAction.zgSubmit,
                SettleAction.zgWaitReceipt])
        | ok st =>
          by_cases hst : st = "success"
          · exact Or.inl (by simp [settleMain, h56, hv, hze, hzw, hst])
          · exact Or.inl (by simp [settleMain, h56, hv, hze, hzw, hst])
    · simpa [settleMain, h56, hv] using
        settleDirect_cases env p none (tr ++ [SettleAction.zgValidateCall])
  · simpa [settleMain, h56] using settleDirect_cases env p none tr

/-- Every result of `settle` is a success, the
`invalid_transaction_state` taxonomy failure, or a classifier-message
failure. -/
theorem settle_result_cases (cfg : Bool) (env : SettleEnv)
    (p : PaymentPayload) (req : PaymentRequirements) :
    (settle cfg env p req).1.success = true ∨
    (settle cfg env p req).1.errorReason = some "invalid_transaction_state" ∨
    ∃ m, (settle cfg env p req).1.errorReason = some (settleErrorMessage m) := by
  by_cases hA : (cfg && truthyStr (env.parse6492 p.payload.signature).address &&
      truthyStr (env.parse6492 p.payload.signature).data &&
      !(getAddr ((env.parse6492 p.payload.signature).address.getD "") =
          getAddr zeroAddress)) = true
  · by_cases hnc : noCode (env.getCode p.payload.authorization.from_) = true
    · cases hd : env.deploySend with
      | error e => exact Or.inr (Or.inr ⟨e, by simp [settle, settleCatch, hA, hnc, hd]⟩)
      | ok dtx =>
        cases hw : env.deployWait with
        | error e =>
          exact Or.inr (Or.inr ⟨e, by simp [settle, settleCatch, hA, hnc, hd, hw]⟩)
        | ok _ =>
          simpa [settle, hA, hnc, hd, hw] using
            settleMain_cases env p req
              [SettleAction.deploySubmit, SettleAction.deployWaitReceipt]
    · simpa [settle, hA, hnc] using settleMain_cases env p req []
  · simpa [settle, hA] using settleMain_cases env p req []

/-! ## Claim C1 -/

/-- An environment identical to `benignVerifyEnv` except that gas
estimation throws an `Error` with an unclassified message. -/
def gasFailEnv : VerifyEnv :=
  { benignVerifyEnv with estimateGas := .errMsg "boom" }

/-- Claim C1 counterexample: when `estimateGas` throws an unclassified
error, `verify` returns the free-text reason
`"Failed to estimate gas: boom"`, which is not one of the closed
taxonomy strings of section 7. -/
theorem claim1_counterexample :
    (verify gasFailEnv versionPayload versionReq).1.isValid = false ∧
    (verify gasFailEnv versionPayload versionReq).1.invalidReason =
      some "Failed to estimate gas: boom" ∧
    "Failed to estimate gas: boom" ∉ taxonomy := by
  exact ⟨by decide, by decide, by decide⟩

set_option maxHeartbeats 1600000 in
/-- Claim C1 (amended): every unsuccessful `verify` result carries either
a taxonomy string or a message of the gas-estimation error classifier
(six fixed human-readable texts or a `"Failed to estimate gas: "`-prefixed
fallback), and every unsuccessful `settle` result carries either the
taxonomy string `invalid_transaction_state` or a message of the
settlement error classifier (which also preserves receipt-timeout
messages verbatim); the taxonomy strings themselves are emitted
unchanged. -/
theorem claim1_amended (env : VerifyEnv) (cfg : Bool) (senv : SettleEnv)
    (p : PaymentPayload) (req : PaymentRequirements) :
    ((verify env p req).1.isValid = false →
      (∃ t ∈ taxonomy, (verify env p req).1.invalidReason = some t) ∨
      (∃ m, (verify env p req).1.invalidReason = some (selectorMessage m))) ∧
    ((settle cfg senv p req).1.success = false →
      (settle cfg senv p req).1.errorReason = some "invalid_transaction_state" ∨
      (∃ m, (settle cfg senv p req).1.errorReason = some (settleErrorMessage m))) := by
  have hVR : (verify env p req).1 = verifyResponse env p req := rfl
  rw [hVR]
  constructor
  · simp only [verifyResponse]
    repeat' split
    all_goals intro hfail
    all_goals try exact Bool.noConfusion hfail
    · exact Or.inl ⟨"unsupported_scheme", by decide, rfl⟩
    · exact Or.inl ⟨"missing_eip712_domain", by decide, rfl⟩
    · exact Or.inl ⟨"network_mismatch", by decide, rfl⟩
    · rename_i r hr
      rcases gasPhaseReason_cases env p with hnone | ⟨m, _, hsel⟩ | hu | hs
      · rw [hnone] at hr
        cases hr
      · rw [hsel] at hr
        have hrm : selectorMessage m = r := by simpa using hr
        refine Or.inr ⟨m, ?_⟩
        show some r = some (selectorMessage m)
        rw [hrm]
      · rw [hu] at hr
        have hrm : "invalid_exact_evm_payload_undeployed_smart_wallet" = r := by
          simpa using hr
        exact Or.inl ⟨r, by rw [← hrm]; decide, rfl⟩
      · rw [hs] at hr
        have hrm : "invalid_exact_evm_payload_signature" = r := by simpa using hr
        exact Or.inl ⟨r, by rw [← hrm]; decide, rfl⟩
    · exact Or.inl ⟨"invalid_exact_evm_payload_recipient_mismatch", by decide, rfl⟩
    · exact Or.inl ⟨"invalid_exact_evm_payload_authorization_valid_before",
        by decide, rfl⟩
    · exact Or.inl ⟨"invalid_exact_evm_payload_authorization_valid_after",
        by decide, rfl⟩
    · exact Or.inl ⟨"insufficient_funds", by decide, rfl⟩
    · exact Or.inl ⟨"invalid_exact_evm_payload_authorization_value", by decide, rfl⟩
    · exact Or.inl ⟨"invalid_exact_evm_payload_authorization_value", by decide, rfl⟩
  · intro hfail
    rcases settle_result_cases cfg senv p req with hs | hs | hs
    · exact Bool.noConfusion (hs.symm.trans hfail)
    · exact Or.inl hs
    · exact Or.inr hs

/-- Witness for claim C1 (amended) at a concrete input: the gas-failure
run of the counterexample falls in the classifier-message disjunct. -/
theorem claim1_amended_witness :
    (∃ t ∈ taxonomy,
        (verify gasFailEnv versionPayload versionReq).1.invalidReason = some t) ∨
    (∃ m, (verify gasFailEnv versionPayload versionReq).1.invalidReason =
        some (selectorMessage m)) :=
  (claim1_amended gasFailEnv false
      { parse6492 := fun s => ⟨none, none, s⟩
        getCode := fun _ => none
        deploySend := .ok "0xdep"
        deployWait := .ok "success"
        supports3009 := true
        zgValidate := ⟨false⟩
        zgExecute := .ok "0xzg"
        zgWait := .ok "success"
        directSend := .ok "0xdirect"
        directWait := .ok "success"
        extractTxHash := fun _ => none }
      versionPayload versionReq).1 (by decide)

/-! ## Claim C3 -/

/-- A probe environment whose first chain call succeeds and whose second
fails with a function-does-not-exist revert. -/
def flakyProbeEnv : ProbeEnv :=
  ⟨fun i => if i = 0 then .ok () else .error "function does not exist"⟩

/-- Claim C3 counterexample: there is no cache — probing the same
`(chain, asset)` pair twice issues two chain queries (the process query
counter reaches 2, not 1) and the two probes return different booleans
when the chain answers differ. -/
theorem claim3_counterexample :
    (verifyTransferWithAuthorizationSupport flakyProbeEnv "0xAsset" ⟨0⟩).1 = true ∧
    (verifyTransferWithAuthorizationSupport flakyProbeEnv "0xAsset"
        (verifyTransferWithAuthorizationSupport flakyProbeEnv "0xAsset" ⟨0⟩).2).1 =
      false ∧
    (verifyTransferWithAuthorizationSupport flakyProbeEnv "0xAsset"
        (verifyTransferWithAuthorizationSupport flakyProbeEnv "0xAsset" ⟨0⟩).2).2.queries =
      2 := by
  exact ⟨rfl, by decide, rfl⟩

/-- Claim C3 (amended): the probe result is never cached.  Every call to
`verifyTransferWithAuthorizationSupport` issues exactly one fresh chain
query, so two probes of the same `(chain, asset)` pair during one process
lifetime both query the chain, and they agree only when the chain's
answers agree. -/
theorem claim3_amended (env : ProbeEnv) (tokenAddress : String)
    (s : ProbeState) :
    (verifyTransferWithAuthorizationSupport env tokenAddress s).2.queries =
      s.queries + 1 := by
  cases h : env.readOutcome s.queries <;>
    simp [verifyTransferWithAuthorizationSupport, hasTransferWithAuthorization, h]

/-! ## Claim C2 -/

/-- Settlement environment of the failing input: the chain-56 paymaster
reports the call sponsorable, the sponsored transaction is submitted,
and waiting for its receipt yields status `"reverted"`. -/
def sponsoredRevertEnv : SettleEnv :=
  { parse6492 := fun s => ⟨none, none, s⟩
    getCode := fun _ => none
    deploySend := .ok "0xdep"
    deployWait := .ok "success"
    supports3009 := true
    zgValidate := ⟨true⟩
    zgExecute := .ok "0xsponsored"
    zgWait := .ok "reverted"
    directSend := .ok "0xdirect"
    directWait := .ok "success"
    extractTxHash := fun _ => none }

/-- A payload accepted on BSC (chain id 56). -/
def bscPayload : PaymentPayload :=
  ⟨2, ⟨⟨"0xPayer", "0xPayee", 1000, 90, 2000, "0xnonce"⟩, "0xsig"⟩,
   ⟨"exact", "eip155:56"⟩, ⟨"https://r"⟩⟩

/-- The matching BSC requirement. -/
def bscReq : PaymentRequirements :=
  ⟨"exact", "eip155:56", "0xAsset", "0xPayee", 1000, some ⟨"T", "1"⟩⟩

/-- Claim C2, evaluated at the failing input: on chain 56 with a
sponsorable call whose sponsored transaction receipt is not successful,
`settle` does not fall through to the Stage-C direct facilitator
submission — it returns `success := true` with the reverted sponsored
hash, and the trace contains no direct submission (the branch sets
`next = false` although its own comment says to continue with the
original transaction flow). -/
theorem claim2_code_divergence :
    (settle false sponsoredRevertEnv bscPayload bscReq).1.success = true ∧
    (settle false sponsoredRevertEnv bscPayload bscReq).1.transaction =
      "0xsponsored" ∧
    (settle false sponsoredRevertEnv bscPayload bscReq).2 =
      [SettleAction.zgValidateCall, SettleAction.zgSubmit,
       SettleAction.zgWaitReceipt] := by
  exact ⟨by decide, by decide, by decide⟩

/-! ## Claim C7 -/

/-- Splitting a list that does not contain the separator yields the list
itself as the single piece. -/
theorem splitOnChar_not_mem (c : Char) (a : List Char) (h : c ∉ a) :
    splitOnChar c a = [a] := by
  induction a with
  | nil => rfl
  | cons x xs ih =>
    have hx : ¬(x = c) := fun hxc => h (hxc ▸ List.mem_cons_self x xs)
    have hxs : c ∉ xs := fun hm => h (List.mem_cons_of_mem x hm)
    simp [splitOnChar, hx, ih hxs]

/-- Splitting around the first separator occurrence: the piece before it
is returned first. -/
theorem splitOnChar_append (c : Char) (a b : List Char) (h : c ∉ a) :
    splitOnChar c (a ++ c :: b) = a :: splitOnChar c b := by
  induction a with
  | nil => simp [splitOnChar]
  | cons x xs ih =>
    have hx : ¬(x = c) := fun hxc => h (hxc ▸ List.mem_cons_self x xs)
    have hxs : c ∉ xs := fun hm => h (List.mem_cons_of_mem x hm)
    simp [splitOnChar, hx, ih hxs]

/-- A character list passing the digits test does not contain a colon. -/
theorem colon_not_mem_of_digits (ds : List Char) (h : isDigitsList ds = true) :
    (':' : Char) ∉ ds := by
  intro hm
  have hall := (Bool.and_eq_true _ _ |>.mp h).2
  have := List.all_eq_true.mp hall _ hm
  exact absurd this (by decide)

/-- Claim C7: `getEvmChainId` resolves CAIP-2 strings
`"namespace:number"` and bare decimal strings to their numeric chain id,
and unknown names fall back to id 1; in particular `"eip155:56"`,
`"56"`, and `"bsc"` all resolve to chain id 56.  (Chain ids are positive;
the numeral's value is `digitsToNat`.) -/
theorem claim7_chain_id_resolution :
    (∀ (ns : String) (ds : List Char), (':' : Char) ∉ ns.toList →
       isDigitsList ds = true → 0 < digitsToNat ds →
       getEvmChainId (String.mk (ns.toList ++ ':' :: ds)) = digitsToNat ds) ∧
    (∀ ds : List Char, isDigitsList ds = true → 0 < digitsToNat ds →
       getEvmChainId (String.mk ds) = digitsToNat ds) ∧
    (∀ s : String, (':' : Char) ∉ s.toList → isDigitsList s.toList = false →
       networkMap.lookup s = none → getEvmChainId s = 1) ∧
    (getEvmChainId "eip155:56" = 56 ∧ getEvmChainId "56" = 56 ∧
       getEvmChainId "bsc" = 56) := by
  refine ⟨?_, ?_, ?_, by decide, by decide, by decide⟩
  · intro ns ds hns hds hpos
    have hdc : (':' : Char) ∉ ds := colon_not_mem_of_digits ds hds
    have hsplit : splitOnChar ':' (ns.data ++ ':' :: ds) = [ns.data, ds] := by
      have h1 := splitOnChar_append ':' ns.toList ds hns
      have h2 := splitOnChar_not_mem ':' ds hdc
      rw [h2] at h1
      exact h1
    show getEvmChainId ⟨ns.toList ++ ':' :: ds⟩ = digitsToNat ds
    simp [getEvmChainId, String.toList, hsplit, jsNumberChars, hds, hpos]
  · intro ds hds hpos
    have hdc : (':' : Char) ∉ ds := colon_not_mem_of_digits ds hds
    show getEvmChainId ⟨ds⟩ = digitsToNat ds
    simp [getEvmChainId, String.toList, hdc, hds, hpos]
  · intro s hns hnd hlk
    have hns2 : (':' : Char) ∉ s.data := hns
    have hnd2 : isDigitsList s.data = false := hnd
    simp [getEvmChainId, String.toList, hns2, hnd2, hlk]

/-- Witness for claim C7: the general CAIP-2 and bare-decimal clauses
applied at namespace `"eip155"` and the numeral `56`. -/
theorem claim7_chain_id_resolution_witness :
    getEvmChainId (String.mk ("eip155".toList ++ ':' :: ['5', '6'])) =
      digitsToNat ['5', '6'] ∧
    getEvmChainId (String.mk ['5', '6']) = digitsToNat ['5', '6'] ∧
    getEvmChainId "unknown-net" = 1 :=
  ⟨claim7_chain_id_resolution.1 "eip155" ['5', '6'] (by decide) (by decide)
      (by decide),
   claim7_chain_id_resolution.2.1 ['5', '6'] (by decide) (by decide),
   claim7_chain_id_resolution.2.2.1 "unknown-net" (by decide) (by decide)
      (by decide)⟩

/-! ## Claims C8 and C10 -/

/-- Claim C8: for every request that passed verification, if the
downstream handler's response has status ≥ 400 the middleware performs
no settle call and passes the downstream response through unchanged (no
`X-PAYMENT-RESPONSE` header is added and the body and status are not
replaced). -/
theorem claim8_no_settle_on_error_status (env : MwEnv) (s : String)
    (dp : MwPayload) (q : MwRequirement)
    (hm : env.routeMatched = true)
    (hr : env.routeRequirements.isEmpty = false)
    (hh : env.header = some s)
    (hd : env.decode s = .ok dp)
    (hf : env.findMatching
        (updateRequirements env.routeRequirements env.requestUrl)
        { dp with x402Version := mwX402Version } = some q)
    (hv : env.verifyOutcome.isValid = true)
    (hs : env.downstream.status ≥ 400) :
    (paymentMiddleware env).settleCalled = false ∧
    (paymentMiddleware env).response = env.downstream := by
  simp [paymentMiddleware, hm, hr, hh, hd, hf, hv, hs]

/-- A concrete middleware request environment: route matched, valid
payment header, successful verification, downstream handler answering
with status 500. -/
def mwEnvW : MwEnv :=
  { routeMatched := true
    routeRequirements := [⟨"exact", "evm", "56", "0xToken", "0xPayee", none⟩]
    requestUrl := "https://api/x"
    header := some "hdr"
    isWebBrowser := false
    decode := fun _ => .ok ⟨7, "exact", "evm", "56"⟩
    findMatching := fun qs _ => qs.head?
    verifyOutcome := ⟨true, none, "0xPayer", some "payload"⟩
    downstream := ⟨500, "downstream-error", []⟩
    settleOutcome := .ok ⟨true, "enc", none⟩ }

/-- Witness for claim C8 at the concrete environment `mwEnvW`. -/
theorem claim8_no_settle_on_error_status_witness :
    (paymentMiddleware mwEnvW).settleCalled = false ∧
    (paymentMiddleware mwEnvW).response = mwEnvW.downstream :=
  claim8_no_settle_on_error_status mwEnvW "hdr" ⟨7, "exact", "evm", "56"⟩
    ⟨"exact", "evm", "56", "0xToken", "0xpayee", some "https://api/x"⟩
    rfl rfl rfl rfl (by decide) rfl (by decide)

/-- Claim C10: after base64-JSON-decoding an `X-PAYMENT` header, the Hono
`paymentMiddleware` unconditionally overwrites the decoded payment
payload's `x402Version` field with the constant 1 before match selection
and verification, regardless of the version value the client sent. -/
theorem claim10_version_overwrite (env : MwEnv) (s : String) (dp : MwPayload)
    (hm : env.routeMatched = true)
    (hr : env.routeRequirements.isEmpty = false)
    (hh : env.header = some s)
    (hd : env.decode s = .ok dp) :
    mwX402Version = 1 ∧
    (paymentMiddleware env).usedPayment = some { dp with x402Version := 1 } := by
  refine ⟨rfl, ?_⟩
  simp [paymentMiddleware, hm, hr, hh, hd]
  repeat' split
  all_goals rfl

/-- Witness for claim C10: the decoded header carried version 7, the
payload used for match selection carries version 1. -/
theorem claim10_version_overwrite_witness :
    (paymentMiddleware mwEnvW).usedPayment = some ⟨1, "exact", "evm", "56"⟩ :=
  (claim10_version_overwrite mwEnvW "hdr" ⟨7, "exact", "evm", "56"⟩
    rfl rfl rfl rfl).2

/-! ## Claim C6 -/

/-- Submissions in a concatenated trace add up. -/
theorem countSends_append (a b : List ZgAction) :
    countSends (a ++ b) = countSends a + countSends b := by
  simp [countSends, List.filter_append]

/-- The recovery actions of one retry contain no submission. -/
theorem countSends_step (msg : String) (n : Nat) :
    countSends ([ZgAction.fetchNonce true, ZgAction.sendTx,
        ZgAction.fetchNonce true] ++
      (if isNonceTooHighMsg msg then [ZgAction.fetchNonce false] else []) ++
      [ZgAction.wait (retryWaitMs msg n)]) = 1 := by
  cases h : isNonceTooHighMsg msg <;> simp [h, countSends]

/-- The retry loop submits at most once per allowed attempt. -/
theorem execLoopAux_sends_le (submit : Nat → Except String String) :
    ∀ (r attempt : Nat), countSends (execLoopAux submit attempt r).2 ≤ r + 1 := by
  intro r
  induction r with
  | zero =>
    intro attempt
    cases hs : submit attempt <;> simp [execLoopAux, hs, countSends]
  | succ r ih =>
    intro attempt
    cases hs : submit attempt with
    | ok h => simp [execLoopAux, hs, countSends]
    | error msg =>
      by_cases hn : isNonceErrorMsg msg = true
      · have hcount :
            countSends (execLoopAux submit attempt (r + 1)).2 =
              1 + countSends (execLoopAux submit (attempt + 1) r).2 := by
          simp only [execLoopAux, hs, hn, if_true]
          rw [countSends_append, countSends_step]
        rw [hcount]
        have := ih (attempt + 1)
        omega
      · simp [execLoopAux, hs, hn, countSends]

/-- Every trace of the retry loop starts with a pending-nonce fetch. -/
theorem execLoopAux_trace_head (submit : Nat → Except String String)
    (r attempt : Nat) :
    ∃ t, (execLoopAux submit attempt r).2 = ZgAction.fetchNonce true :: t := by
  cases r with
  | zero =>
    cases hs : submit attempt with
    | ok h => exact ⟨[ZgAction.sendTx], by simp [execLoopAux, hs]⟩
    | error msg => exact ⟨[ZgAction.sendTx], by simp [execLoopAux, hs]⟩
  | succ r =>
    cases hs : submit attempt with
    | ok h => exact ⟨[ZgAction.sendTx], by simp [execLoopAux, hs]⟩
    | error msg =>
      by_cases hn : isNonceErrorMsg msg = true
      · exact ⟨[ZgAction.sendTx, ZgAction.fetchNonce true] ++
          (if isNonceTooHighMsg msg then [ZgAction.fetchNonce false] else []) ++
          [ZgAction.wait (retryWaitMs msg (attempt + 1))] ++
          (execLoopAux submit (attempt + 1) r).2,
          by simp [execLoopAux, hs, hn]⟩
      · exact ⟨[ZgAction.sendTx], by simp [execLoopAux, hs, hn]⟩

/-- In every trace of the retry loop, each submission is immediately
preceded by a pending-nonce fetch. -/
theorem execLoopAux_pending_fetch (submit : Nat → Except String String) :
    ∀ (r attempt : Nat),
      sendsAfterPendingFetch (execLoopAux submit attempt r).2 = true := by
  intro r
  induction r with
  | zero =>
    intro attempt
    cases hs : submit attempt <;> simp [execLoopAux, hs, sendsAfterPendingFetch]
  | succ r ih =>
    intro attempt
    cases hs : submit attempt with
    | ok h => simp [execLoopAux, hs, sendsAfterPendingFetch]
    | error msg =>
      by_cases hn : isNonceErrorMsg msg = true
      · obtain ⟨t, ht⟩ := execLoopAux_trace_head submit r (attempt + 1)
        have hscan := ih (attempt + 1)
        rw [ht] at hscan
        simp only [execLoopAux, hs, hn, if_true, ht]
        cases hth : isNonceTooHighMsg msg <;>
          simpa [sendsAfterPendingFetch, hth] using hscan
      · simp [execLoopAux, hs, hn, sendsAfterPendingFetch]

/-- If every attempt up to exhaustion fails with a nonce error, the loop
performs one submission per attempt and re-throws the last error. -/
theorem execLoopAux_exhaustion (submit : Nat → Except String String) :
    ∀ (r attempt : Nat),
      (∀ i, i ≤ r → ∃ m, submit (attempt + i) = .error m ∧
          isNonceErrorMsg m = true) →
      ∀ mLast, submit (attempt + r) = .error mLast →
      (execLoopAux submit attempt r).1 = .error mLast ∧
      countSends (execLoopAux submit attempt r).2 = r + 1 := by
  intro r
  induction r with
  | zero =>
    intro attempt hall mLast hlast
    rw [Nat.add_zero] at hlast
    constructor <;> simp [execLoopAux, hlast, countSends]
  | succ r ih =>
    intro attempt hall mLast hlast
    obtain ⟨m0, hm0, hn0⟩ := hall 0 (Nat.zero_le _)
    rw [Nat.add_zero] at hm0
    have hshift : ∀ i, i ≤ r → ∃ m, submit (attempt + 1 + i) = .error m ∧
        isNonceErrorMsg m = true := by
      intro i hi
      have hh := hall (i + 1) (by omega)
      rwa [show attempt + (i + 1) = attempt + 1 + i by omega] at hh
    have hlast2 : submit (attempt + 1 + r) = .error mLast := by
      rwa [show attempt + (r + 1) = attempt + 1 + r by omega] at hlast
    obtain ⟨ih1, ih2⟩ := ih (attempt + 1) hshift mLast hlast2
    constructor
    · simp [execLoopAux, hm0, hn0, ih1]
    · have hcount :
          countSends (execLoopAux submit attempt (r + 1)).2 =
            1 + countSends (execLoopAux submit (attempt + 1) r).2 := by
        simp only [execLoopAux, hm0, hn0, if_true]
        rw [countSends_append, countSends_step]
      rw [hcount, ih2]
      omega

/-- A non-nonce error at the (j+1)-st submission aborts the loop
immediately: the loop throws exactly that error after exactly j+1
submissions. -/
theorem execLoopAux_abort (submit : Nat → Except String String) :
    ∀ (j r attempt : Nat) (m : String), j ≤ r →
      (∀ i, i < j → ∃ mi, submit (attempt + i) = .error mi ∧
          isNonceErrorMsg mi = true) →
      submit (attempt + j) = .error m → isNonceErrorMsg m = false →
      (execLoopAux submit attempt r).1 = .error m ∧
      countSends (execLoopAux submit attempt r).2 = j + 1 := by
  intro j
  induction j with
  | zero =>
    intro r attempt m hjr hpre hm hnn
    rw [Nat.add_zero] at hm
    cases r with
    | zero => constructor <;> simp [execLoopAux, hm, countSends]
    | succ r => constructor <;> simp [execLoopAux, hm, hnn, countSends]
  | succ j ih =>
    intro r attempt m hjr hpre hm hnn
    obtain ⟨m0, hm0, hn0⟩ := hpre 0 (by omega)
    rw [Nat.add_zero] at hm0
    cases r with
    | zero => omega
    | succ r =>
      have hpre2 : ∀ i, i < j → ∃ mi, submit (attempt + 1 + i) = .error mi ∧
          isNonceErrorMsg mi = true := by
        intro i hi
        have hh := hpre (i + 1) (by omega)
        rwa [show attempt + (i + 1) = attempt + 1 + i by omega] at hh
      have hm2 : submit (attempt + 1 + j) = .error m := by
        rwa [show attempt + (j + 1) = attempt + 1 + j by omega] at hm
      obtain ⟨ih1, ih2⟩ := ih r (attempt + 1) m (by omega) hpre2 hm2 hnn
      constructor
      · simp [execLoopAux, hm0, hn0, ih1]
      · have hcount :
            countSends (execLoopAux submit attempt (r + 1)).2 =
              1 + countSends (execLoopAux submit (attempt + 1) r).2 := by
          simp only [execLoopAux, hm0, hn0, if_true]
          rw [countSends_append, countSends_step]
        rw [hcount, ih2]
        omega

/-- Claim C6: the Stage-B sponsored submit retry loop
(`ZeroGasTool.executeGaslessWithdraw`, default `maxRetries = 5`):
(1) at most 6 submissions, i.e. at most 5 retry attempts;
(2) the pending nonce is refetched from the chain immediately before
every submission;
(3) a non-nonce error aborts the retry loop immediately and is thrown;
(4) on exhaustion (all 6 attempts fail with nonce errors) the last
underlying error is thrown;
(5) a nonce-classified failure is followed by the classifier's recovery
actions then a retried submission, with the backoff
(6) `2s·attempt` for nonce-too-low, (7) a `"latest"`-status refetch and a
short 1s wait for nonce-too-high, (8) `1.5s·attempt` for already-used and
(9) `1s·attempt` for other nonce errors. -/
theorem claim6_retry_loop (submit : Nat → Except String String) :
    countSends (executeGaslessWithdraw submit 5).2 ≤ 6 ∧
    sendsAfterPendingFetch (executeGaslessWithdraw submit 5).2 = true ∧
    (∀ (j : Nat) (m : String), j ≤ 5 →
      (∀ i, i < j → ∃ mi, submit i = .error mi ∧ isNonceErrorMsg mi = true) →
      submit j = .error m → isNonceErrorMsg m = false →
      (executeGaslessWithdraw submit 5).1 = .error m ∧
      countSends (executeGaslessWithdraw submit 5).2 = j + 1) ∧
    ((∀ i, i ≤ 5 → ∃ mi, submit i = .error mi ∧ isNonceErrorMsg mi = true) →
      ∀ m, submit 5 = .error m →
      (executeGaslessWithdraw submit 5).1 = .error m ∧
      countSends (executeGaslessWithdraw submit 5).2 = 6) ∧
    (∀ (m h : String), submit 0 = .error m → submit 1 = .ok h →
      isNonceErrorMsg m = true →
      (executeGaslessWithdraw submit 5).1 = .ok h ∧
      (executeGaslessWithdraw submit 5).2 =
        [ZgAction.fetchNonce true, ZgAction.sendTx, ZgAction.fetchNonce true] ++
          (if isNonceTooHighMsg m then [ZgAction.fetchNonce false] else []) ++
          [ZgAction.wait (retryWaitMs m 1), ZgAction.fetchNonce true,
           ZgAction.sendTx]) ∧
    (∀ (m : String) (n : Nat), isNonceTooLowMsg m = true →
      retryWaitMs m n = 2000 * n) ∧
    (∀ (m : String) (n : Nat), isNonceTooLowMsg m = false →
      isNonceTooHighMsg m = true → retryWaitMs m n = 1000) ∧
    (∀ (m : String) (n : Nat), isNonceTooLowMsg m = false →
      isNonceTooHighMsg m = false → isNonceUsedMsg m = true →
      retryWaitMs m n = 1500 * n) ∧
    (∀ (m : String) (n : Nat), isNonceTooLowMsg m = false →
      isNonceTooHighMsg m = false → isNonceUsedMsg m = false →
      retryWaitMs m n = 1000 * n) := by
  refine ⟨?_, ?_, ?_, ?_, ?_, ?_, ?_, ?_, ?_⟩
  · exact execLoopAux_sends_le submit 5 0
  · exact execLoopAux_pending_fetch submit 5 0
  · intro j m hj hpre hm hnn
    exact execLoopAux_abort submit j 5 0 m hj (by simpa using hpre)
      (by simpa using hm) hnn
  · intro hall m hm
    exact execLoopAux_exhaustion submit 5 0 (by simpa using hall) m
      (by simpa using hm)
  · intro m h hm0 hok hn
    constructor
    · simp [executeGaslessWithdraw, execLoopAux, hm0, hok, hn]
    · simp [executeGaslessWithdraw, execLoopAux, hm0, hok, hn]
  · intro m n hlow
    simp [retryWaitMs, hlow]
  · intro m n hlow hhigh
    simp [retryWaitMs, hlow, hhigh]
  · intro m n h1 h2 h3
    simp [retryWaitMs, h1, h2, h3]
  · intro m n h1 h2 h3
    simp [retryWaitMs, h1, h2, h3]

/-- A submission outcome whose first attempt fails with a non-nonce
error. -/
def submitAbort : Nat → Except String String :=
  fun _ => .error "insufficient funds for gas"

/-- Witness for claim C6: the non-nonce error aborts after exactly one
submission and is thrown unchanged. -/
theorem claim6_retry_loop_witness :
    (executeGaslessWithdraw submitAbort 5).1 =
      .error "insufficient funds for gas" ∧
    countSends (executeGaslessWithdraw submitAbort 5).2 = 1 :=
  (claim6_retry_loop submitAbort).2.2.1 0 "insufficient funds for gas"
    (by omega) (fun i hi => absurd hi (by omega)) rfl (by decide)

end BnbX402
